import Mathlib

/-!
Verification of obs_recording_notification.py (an OBS script that shows a
fading popup and plays a sound on recording and replay-buffer events).

The development is a shallow embedding of the script:

- Notification requests are the (notification_type, notification_state)
  string pairs the script stores on the Application object; we model the
  strings "recording"/"replay" and "started"/"paused"/"unpaused"/"saved"
  as enumerations, since those are the only values the script ever writes.
- Window opacity (the Tk alpha attribute) is modelled as an exact rational;
  the script steps it by 0.1 per tick.
- The Tk event loop is modelled as a queue of scheduled callbacks with
  integer ids and millisecond delays: after(d, cb) appends a fresh entry,
  after_cancel removes the entry with a given id, and a nondeterministic
  step relation runs any queued callback (over-approximating timer order)
  or posts a new dispatcher submission (the after(0, lambda) calls made by
  frontend_event_handler).
- winsound and threading are modelled by their effects: which beeps and
  PlaySound argument tuples are attempted, and the Python rule that a
  threading.Thread object can be started at most once (a second start
  raises RuntimeError).
-/

set_option maxHeartbeats 1000000
set_option maxRecDepth 8000

namespace ObsNotify

/-- The values the script writes into notification_type: the strings
"recording" and "replay". -/
inductive NType where
  | recording
  | replay
  deriving DecidableEq, Repr

/-- The values the script writes into notification_state: the strings
"started", "paused", "unpaused" and "saved". -/
inductive NState where
  | started
  | paused
  | unpaused
  | saved
  deriving DecidableEq, Repr

/-- A stored notification request: the pair (notification_type,
notification_state). -/
abbrev Req := NType × NState

/-- The labels dict of Application.check_loop_status together with the
default value of labels.get: the five known pairs map to their label and
every other pair maps to the string "Notification". -/
def labels : Req → String
  | (.recording, .started) => "Recording Started"
  | (.recording, .paused) => "Recording Paused"
  | (.recording, .unpaused) => "Recording Resumed"
  | (.recording, .saved) => "Recording Saved"
  | (.replay, .saved) => "Replay Saved"
  | _ => "Notification"

/-- One canvas drawing command issued by Application._draw_indicator.
Coordinates are the exact rational products computed from the scale
factor. The line width is int(3*s); int() truncates toward zero and the
scale is nonnegative in every use, so it is modelled with the floor. -/
inductive Shape where
  | oval (x0 y0 x1 y1 : ℚ) (outline : Option String) (fill : String)
  | rect (x0 y0 x1 y1 : ℚ) (fill outline : String)
  | poly (pts : List ℚ) (fill outline : String)
  | line (x0 y0 x1 y1 : ℚ) (fill : String) (width : ℤ)
  deriving DecidableEq, Repr

/-- Application._draw_indicator: clears the canvas and draws the shadow,
the border, and then the glyph selected by (ntype, state). The recording
branch treats every state other than started, paused and unpaused as
saved; the replay branch ignores the state entirely. -/
def draw_indicator (sc : ℚ) (nt : NType) (ns : NState) : List Shape :=
  [Shape.oval (25*sc) (25*sc) (5*sc) (5*sc) (some "#000000") "#000000",
   Shape.oval (24*sc) (24*sc) (6*sc) (6*sc) (some "#404040") "#252525"]
  ++ (match nt, ns with
      | NType.recording, NState.started =>
          [Shape.oval (22*sc) (22*sc) (8*sc) (8*sc) none "#ff3333"]
      | NType.recording, NState.paused =>
          [Shape.rect (12*sc) (10*sc) (15*sc) (20*sc) "#ff9900" "#ff9900",
           Shape.rect (17*sc) (10*sc) (20*sc) (20*sc) "#ff9900" "#ff9900"]
      | NType.recording, NState.unpaused =>
          [Shape.poly [12*sc, 10*sc, 12*sc, 20*sc, 22*sc, 15*sc] "#00cc00" "#00cc00"]
      | NType.recording, NState.saved =>
          [Shape.line (10*sc) (15*sc) (15*sc) (20*sc) "#00cc00" ⌊3*sc⌋,
           Shape.line (15*sc) (20*sc) (22*sc) (10*sc) "#00cc00" ⌊3*sc⌋]
      | NType.replay, _ =>
          [Shape.oval (22*sc) (22*sc) (8*sc) (8*sc) none "#0099ff"])

/-- The argument tuple of a play_sound call: the sound alias plus the
fallback beep frequency, duration and repeat count. -/
structure SoundSpec where
  aliasName : String
  fallback_freq : ℕ
  fallback_duration : ℕ
  fallback_count : ℕ
  deriving DecidableEq, Repr

/-- The warmup sound routine: if the winsound import succeeded it attempts
a single Beep(37, 1); the Config.sounds_enabled flag is never consulted.
The result is the list of (frequency, duration) beeps attempted. -/
def warmup_sound (soundsAvailable : Bool) : List (ℕ × ℕ) :=
  if soundsAvailable then [(37, 1)] else []

/-- play_sound: returns none (no worker thread spawned, nothing played)
when winsound is unavailable or Config.sounds_enabled is false; otherwise
returns the argument tuple handed to the worker thread. -/
def play_sound (soundsAvailable soundsEnabled : Bool)
    (aliasName : String) (freq dur cnt : ℕ) : Option SoundSpec :=
  if !soundsAvailable || !soundsEnabled then none
  else some ⟨aliasName, freq, dur, cnt⟩

/-- Status of the Python threading.Thread object thd that runs the Tk main
loop. -/
inductive ThreadStatus where
  | notStarted
  | running
  | terminated
  deriving DecidableEq, Repr

/-- threading.Thread.is_alive: true exactly while the thread is running. -/
def thread_is_alive : ThreadStatus → Bool
  | .running => true
  | _ => false

/-- threading.Thread.start: starts a not-yet-started thread; calling it on
a thread that was already started (still running or already terminated)
raises RuntimeError, because Python thread objects can be started at most
once. -/
def thread_start : ThreadStatus → Except String ThreadStatus
  | .notStarted => .ok .running
  | _ => .error "RuntimeError: threads can only be started once"

/-- The environment frontend_event_handler runs in: the thd thread status,
whether app_instance exists with a live master window (the three-part
guard app_instance and hasattr master and winfo_exists), and the two sound
gates (winsound availability and Config.sounds_enabled). -/
structure Ctx where
  threadStatus : ThreadStatus
  uiAlive : Bool
  soundsAvailable : Bool
  soundsEnabled : Bool
  deriving DecidableEq, Repr

/-- The observable effect of one frontend_event_handler call: whether
thd.start() was invoked, the beeps attempted by warmup_sound, the argument
tuple passed to play_sound (if any call was made), and the notification
request posted to the UI thread with after(0, lambda ...) (if any). -/
structure Effect where
  threadStarted : Bool
  warmupBeeps : List (ℕ × ℕ)
  soundCall : Option SoundSpec
  posted : Option Req
  deriving DecidableEq, Repr

/-- The OBS frontend events the handler distinguishes; other covers every
other OBS_FRONTEND_EVENT constant, for which the if/elif chain falls
through. -/
inductive HostEvent where
  | finishedLoading
  | recordingStarting
  | recordingStopped
  | recordingPaused
  | recordingUnpaused
  | replayBufferSaved
  | other
  deriving DecidableEq, Repr

/-- frontend_event_handler: on FINISHED_LOADING it starts thd when not
alive (which raises if thd already terminated, since Python threads start
only once) and then runs warmup_sound; for every other event it first
returns when the UI guard fails, and otherwise records the play_sound
call and the posted request of the matching elif branch. -/
def frontend_event_handler (c : Ctx) (e : HostEvent) : Except String Effect :=
  if e = .finishedLoading then
    if thread_is_alive c.threadStatus then
      .ok ⟨false, warmup_sound c.soundsAvailable, none, none⟩
    else
      match thread_start c.threadStatus with
      | .error m => .error m
      | .ok _ => .ok ⟨true, warmup_sound c.soundsAvailable, none, none⟩
  else if c.uiAlive = false then
    .ok ⟨false, [], none, none⟩
  else
    match e with
    | .recordingStarting =>
        .ok ⟨false, [], some ⟨"DeviceConnect", 800, 200, 1⟩, some (.recording, .started)⟩
    | .recordingStopped =>
        .ok ⟨false, [], some ⟨"DeviceDisconnect", 400, 300, 1⟩, some (.recording, .saved)⟩
    | .recordingPaused =>
        .ok ⟨false, [], some ⟨"SystemHand", 600, 150, 2⟩, some (.recording, .paused)⟩
    | .recordingUnpaused =>
        .ok ⟨false, [], some ⟨"SystemAsterisk", 600, 100, 2⟩, some (.recording, .unpaused)⟩
    | .replayBufferSaved =>
        .ok ⟨false, [], some ⟨"SystemNotification", 1000, 100, 3⟩, some (.replay, .saved)⟩
    | _ => .ok ⟨false, [], none, none⟩

/-- The five (type, state) pairs the labels dict knows. -/
def recognizedPairs : List Req :=
  [(.recording, .started), (.recording, .paused), (.recording, .unpaused),
   (.recording, .saved), (.replay, .saved)]

/-- C3: for every recognized host event other than FinishedLoading, the
dispatcher produces exactly the (sound name, fallback Hz, fallback ms,
repeat count) and (notification type, state) pair of the section 6 table:
RecordingStarting gives (DeviceConnect, 800, 200, 1) and (Recording,
Started); RecordingStopped gives (DeviceDisconnect, 400, 300, 1) and
(Recording, Saved); RecordingPaused gives (SystemHand, 600, 150, 2) and
(Recording, Paused); RecordingUnpaused gives (SystemAsterisk, 600, 100, 2)
and (Recording, Unpaused); ReplayBufferSaved gives (SystemNotification,
1000, 100, 3) and (Replay, Saved). -/
theorem handler_matches_table (c : Ctx) (h : c.uiAlive = true) :
    frontend_event_handler c .recordingStarting
      = .ok ⟨false, [], some ⟨"DeviceConnect", 800, 200, 1⟩, some (.recording, .started)⟩ ∧
    frontend_event_handler c .recordingStopped
      = .ok ⟨false, [], some ⟨"DeviceDisconnect", 400, 300, 1⟩, some (.recording, .saved)⟩ ∧
    frontend_event_handler c .recordingPaused
      = .ok ⟨false, [], some ⟨"SystemHand", 600, 150, 2⟩, some (.recording, .paused)⟩ ∧
    frontend_event_handler c .recordingUnpaused
      = .ok ⟨false, [], some ⟨"SystemAsterisk", 600, 100, 2⟩, some (.recording, .unpaused)⟩ ∧
    frontend_event_handler c .replayBufferSaved
      = .ok ⟨false, [], some ⟨"SystemNotification", 1000, 100, 3⟩, some (.replay, .saved)⟩ := by
  refine ⟨?_, ?_, ?_, ?_, ?_⟩ <;> simp [frontend_event_handler, h]

/-- Witness for C3 at a fully live context. -/
theorem handler_matches_table_witness :
    (Ctx.mk .running true true true).uiAlive = true ∧
    frontend_event_handler ⟨.running, true, true, true⟩ .recordingStarting
      = .ok ⟨false, [], some ⟨"DeviceConnect", 800, 200, 1⟩, some (.recording, .started)⟩ ∧
    frontend_event_handler ⟨.running, true, true, true⟩ .recordingStopped
      = .ok ⟨false, [], some ⟨"DeviceDisconnect", 400, 300, 1⟩, some (.recording, .saved)⟩ ∧
    frontend_event_handler ⟨.running, true, true, true⟩ .recordingPaused
      = .ok ⟨false, [], some ⟨"SystemHand", 600, 150, 2⟩, some (.recording, .paused)⟩ ∧
    frontend_event_handler ⟨.running, true, true, true⟩ .recordingUnpaused
      = .ok ⟨false, [], some ⟨"SystemAsterisk", 600, 100, 2⟩, some (.recording, .unpaused)⟩ ∧
    frontend_event_handler ⟨.running, true, true, true⟩ .replayBufferSaved
      = .ok ⟨false, [], some ⟨"SystemNotification", 1000, 100, 3⟩, some (.replay, .saved)⟩ :=
  ⟨rfl, handler_matches_table ⟨.running, true, true, true⟩ rfl⟩

/-- C6 counterexample: with the UI guard failing (app_instance gone), a
RecordingStarting event returns normally but records no play_sound call
at all, because the guard sits before the play_sound call in every elif
branch; the claim says the sound is still triggered. -/
theorem handler_dead_ui_drops_sound_cex :
    frontend_event_handler ⟨.running, false, true, true⟩ .recordingStarting
      = .ok ⟨false, [], none, none⟩ ∧
    Effect.soundCall ⟨false, [], none, none⟩ = none ∧
    (none : Option SoundSpec) ≠ some ⟨"DeviceConnect", 800, 200, 1⟩ := by
  exact ⟨rfl, rfl, by decide⟩

/-- C6 amended: for every event other than FinishedLoading arriving while
app_instance is absent or its window destroyed, the dispatcher drops both
the sound call and the notification submission and returns normally with
no error. -/
theorem handler_dead_ui_noop (c : Ctx) (e : HostEvent)
    (hui : c.uiAlive = false) (he : e ≠ .finishedLoading) :
    frontend_event_handler c e = .ok ⟨false, [], none, none⟩ := by
  simp [frontend_event_handler, he, hui]

/-- Witness for the amended C6. -/
theorem handler_dead_ui_noop_witness :
    (Ctx.mk .running false true true).uiAlive = false ∧
    (HostEvent.recordingStopped ≠ HostEvent.finishedLoading) ∧
    frontend_event_handler ⟨.running, false, true, true⟩ .recordingStopped
      = .ok ⟨false, [], none, none⟩ :=
  ⟨rfl, by decide, handler_dead_ui_noop _ _ rfl (by decide)⟩

/-- C7 counterexample: a FinishedLoading event arriving after the UI
thread has terminated calls thd.start() on a finished thread (is_alive is
false), which raises RuntimeError: Python threads start at most once; the
claim says the start never raises. -/
theorem handler_finished_loading_after_exit_cex :
    frontend_event_handler ⟨.terminated, true, true, true⟩ .finishedLoading
      = .error "RuntimeError: threads can only be started once" := by
  rfl

/-- C7 amended: on every FinishedLoading event the dispatcher produces no
(sound, notification) pair and performs the warm-up, and, provided the UI
thread has not already terminated, the thread start never raises and is a
no-op exactly when the thread is already running; a FinishedLoading
arriving after the thread terminated instead raises, because Python
thread objects cannot be restarted. -/
theorem handler_finished_loading (c : Ctx) (h : c.threadStatus ≠ .terminated) :
    frontend_event_handler c .finishedLoading
      = .ok ⟨!thread_is_alive c.threadStatus, warmup_sound c.soundsAvailable, none, none⟩ := by
  rcases hc : c.threadStatus with _ | _ | _ <;>
    simp [frontend_event_handler, thread_is_alive, thread_start, hc] at h ⊢

/-- Witness for the amended C7: a second FinishedLoading while the thread
is still running is a no-op start with warm-up. -/
theorem handler_finished_loading_witness :
    (Ctx.mk .running true true true).threadStatus ≠ .terminated ∧
    frontend_event_handler ⟨.running, true, true, true⟩ .finishedLoading
      = .ok ⟨false, warmup_sound true, none, none⟩ :=
  ⟨by decide, handler_finished_loading ⟨.running, true, true, true⟩ (by decide)⟩

/-- C8: for every (type, state) pair outside the five recognized
combinations, the label lookup returns the generic fallback string
Notification and the indicator drawn is the fixed placeholder (shadow,
border and the blue replay disc), deterministically, with no failure. -/
theorem unknown_pair_fallback (nt : NType) (ns : NState) (q : ℚ)
    (h : (nt, ns) ∉ recognizedPairs) :
    labels (nt, ns) = "Notification" ∧
    draw_indicator q nt ns =
      [Shape.oval (25*q) (25*q) (5*q) (5*q) (some "#000000") "#000000",
       Shape.oval (24*q) (24*q) (6*q) (6*q) (some "#404040") "#252525",
       Shape.oval (22*q) (22*q) (8*q) (8*q) none "#0099ff"] := by
  cases nt <;> cases ns <;> simp_all [recognizedPairs, labels, draw_indicator]

/-- Witness for C8 at the unrecognized pair (replay, paused). -/
theorem unknown_pair_fallback_witness :
    ((NType.replay, NState.paused) ∉ recognizedPairs) ∧
    (labels (.replay, .paused) = "Notification" ∧
     draw_indicator 1 .replay .paused =
       [Shape.oval 25 25 5 5 (some "#000000") "#000000",
        Shape.oval 24 24 6 6 (some "#404040") "#252525",
        Shape.oval 22 22 8 8 none "#0099ff"]) := by
  refine ⟨by decide, ?_⟩
  have h := unknown_pair_fallback NType.replay NState.paused 1 (by decide)
  simpa using h

/-- C9: the warm-up beep is gated only by winsound availability, never by
Config.sounds_enabled, while an ordinary play_sound call with
sounds_enabled false spawns nothing. -/
theorem warmup_ignores_sounds_enabled (enabled avail : Bool)
    (a : String) (f d cnt : ℕ) :
    warmup_sound true = [(37, 1)] ∧
    warmup_sound false = [] ∧
    play_sound avail false a f d cnt = none ∧
    (enabled = true → play_sound true enabled a f d cnt = some ⟨a, f, d, cnt⟩) := by
  refine ⟨rfl, rfl, ?_, ?_⟩
  · cases avail <;> rfl
  · intro h; simp [play_sound, h]

/-- Witness for C9. -/
theorem warmup_ignores_sounds_enabled_witness :
    warmup_sound true = [(37, 1)] ∧
    warmup_sound false = [] ∧
    play_sound true false "DeviceConnect" 800 200 1 = none ∧
    (true = true → play_sound true true "DeviceConnect" 800 200 1
      = some ⟨"DeviceConnect", 800, 200, 1⟩) :=
  warmup_ignores_sounds_enabled true true "DeviceConnect" 800 200 1

/-- The kinds of callback the script schedules on the Tk event loop:
fade_in and fade_out steps, the check_loop_status poll, and the dispatcher
lambda posted with after(0, ...) that stores a request, sets
pending_notification and calls check_loop_status. -/
inductive Cb where
  | fadeIn
  | fadeOut
  | checkLoop
  | submit (r : Req)
  deriving DecidableEq, Repr

/-- A scheduled event-loop callback: the Tk timer id, the delay in
milliseconds it was scheduled with, and the callback. -/
structure Entry where
  id : ℕ
  delayMs : ℕ
  cb : Cb
  deriving DecidableEq, Repr

/-- The mutable state of the Application object: window opacity (alpha),
the is_animating and pending_notification flags, the optionally present
notification_type and notification_state attributes (absent is idle), the
last timer ids remembered in the fade timer fields, the label text, the
canvas contents, and the scale factor. -/
structure AppState where
  alpha : ℚ
  is_animating : Bool
  pending_notification : Bool
  notification : Option Req
  fade_timer : Option ℕ
  fadeout_timer : Option ℕ
  label_text : String
  indicator : List Shape
  scale : ℚ
  deriving DecidableEq, Repr

/-- The UI thread: the Application state together with the queue of
scheduled callbacks and the next fresh timer id. -/
structure Sys where
  st : AppState
  queue : List Entry
  nextId : ℕ
  deriving DecidableEq, Repr

/-- after(d, cb): appends a fresh queue entry whose id is nextId. -/
def Sys.afterNew (s : Sys) (d : ℕ) (cb : Cb) : Sys :=
  { s with queue := s.queue ++ [⟨s.nextId, d, cb⟩], nextId := s.nextId + 1 }

/-- after_cancel(i): removes the queue entry with id i, a no-op for a
stale id. Also used for the implicit dequeue when a timer fires. -/
def Sys.cancel (s : Sys) (i : ℕ) : Sys :=
  { s with queue := s.queue.filter (fun e => e.id ≠ i) }

/-- Application.fade_in: while alpha is below 0.9, add 0.1, write it back
and schedule another fade_in after 30 ms (remembering its id in
_fade_timer); once 0.9 is reached, schedule fade_out after 3000 ms
(remembering its id in _fadeout_timer). -/
def fade_in (s : Sys) : Sys :=
  if s.st.alpha < 9/10 then
    let s1 : Sys := { s with st := { s.st with alpha := s.st.alpha + 1/10 } }
    let s2 := s1.afterNew 30 Cb.fadeIn
    { s2 with st := { s2.st with fade_timer := some s1.nextId } }
  else
    let s2 := s.afterNew 3000 Cb.fadeOut
    { s2 with st := { s2.st with fadeout_timer := some s.nextId } }

/-- Application.fade_out: while alpha is above 0.1, subtract 0.1, write it
back and schedule another fade_out after 30 ms; otherwise clear
is_animating and delete the stored notification attributes. The terminal
branch does not write alpha. -/
def fade_out (s : Sys) : Sys :=
  if 1/10 < s.st.alpha then
    let s1 : Sys := { s with st := { s.st with alpha := s.st.alpha - 1/10 } }
    let s2 := s1.afterNew 30 Cb.fadeOut
    { s2 with st := { s2.st with fade_timer := some s1.nextId } }
  else
    { s with st := { s.st with is_animating := false, notification := none } }

/-- The interrupt block of check_loop_status: cancel the timers whose ids
are remembered in _fade_timer and _fadeout_timer (when set), snap alpha to
0 and clear pending_notification. -/
def interrupt_branch (s : Sys) : Sys :=
  let s1 := match s.st.fade_timer with
    | some i => s.cancel i
    | none => s
  let s2 := match s1.st.fadeout_timer with
    | some i => s1.cancel i
    | none => s1
  { s2 with st := { s2.st with alpha := 0, pending_notification := false } }

/-- The rendering block of check_loop_status: set is_animating, write the
label text from the labels dict and redraw the indicator for the stored
request. -/
def startRender (r : Req) (s : Sys) : Sys :=
  { s with st := { s.st with
      is_animating := true
      label_text := labels r
      indicator := draw_indicator s.st.scale r.1 r.2 } }

/-- Application.check_loop_status: reschedule and return when no
notification is stored, or when animating with no pending notification;
otherwise run the interrupt block if pending_notification is set, then
mark animating, render the stored request, run fade_in inline and
reschedule the poll. -/
def check_loop_status (s : Sys) : Sys :=
  match s.st.notification with
  | none => s.afterNew 100 Cb.checkLoop
  | some r =>
    if s.st.is_animating && !s.st.pending_notification then
      s.afterNew 100 Cb.checkLoop
    else
      let s1 := if s.st.pending_notification then interrupt_branch s else s
      (fade_in (startRender r s1)).afterNew 100 Cb.checkLoop

/-- The field writes of the dispatcher lambda: store the request in the
notification attributes and set pending_notification. -/
def submitSet (r : Req) (s : Sys) : Sys :=
  { s with st := { s.st with notification := some r, pending_notification := true } }

/-- The whole dispatcher lambda: store the request, set
pending_notification, then call check_loop_status. -/
def submit_cb (r : Req) (s : Sys) : Sys :=
  check_loop_status (submitSet r s)

/-- Dispatch table from callbacks to their bodies. -/
def runCb : Cb → Sys → Sys
  | Cb.fadeIn => fade_in
  | Cb.fadeOut => fade_out
  | Cb.checkLoop => check_loop_status
  | Cb.submit r => submit_cb r

/-- The Application state right after __init__: hidden window (alpha 0),
no animation, no pending notification, no stored request, no timers, the
initial label and indicator. -/
def initApp (sc : ℚ) : AppState :=
  { alpha := 0, is_animating := false, pending_notification := false,
    notification := none, fade_timer := none, fadeout_timer := none,
    label_text := "Recording Started",
    indicator := draw_indicator sc NType.recording NState.started,
    scale := sc }

/-- The UI thread at Application construction: empty callback queue. -/
def initSys (sc : ℚ) : Sys := { st := initApp sc, queue := [], nextId := 0 }

/-- The UI thread state when mainloop begins: runtk calls
check_loop_status once synchronously right after constructing the
Application. -/
def startSys (sc : ℚ) : Sys := check_loop_status (initSys sc)

/-- One step of the UI event loop: either some queued callback fires (it
is dequeued and its body runs; timer order is over-approximated by
letting any entry fire) or the dispatcher posts a new submission with
after(0, lambda ...). -/
inductive Step : Sys → Sys → Prop where
  | run (s : Sys) (e : Entry) (h : e ∈ s.queue) :
      Step s (runCb e.cb (s.cancel e.id))
  | post (s : Sys) (r : Req) : Step s (s.afterNew 0 (Cb.submit r))

/-- The states the UI thread can reach from mainloop start. -/
def Reachable (sc : ℚ) (s : Sys) : Prop :=
  Relation.ReflTransGen Step (startSys sc) s

/-- Whether a callback is part of a fade animation chain. -/
def isAnimCb : Cb → Bool
  | Cb.fadeIn => true
  | Cb.fadeOut => true
  | _ => false

/-- Number of fade callbacks currently scheduled. -/
def animCount (s : Sys) : ℕ :=
  s.queue.countP (fun e => isAnimCb e.cb)

/-- C4: starting from opacity 0, fade_in adds exactly 0.1 per application,
scheduling the next step 30 ms later, reaches exactly 0.9 after exactly 9
steps (strictly below 0.9 before that), never exceeds 0.9, and the next
call schedules fade_out after a 3000 ms hold. Exact rational arithmetic. -/
theorem fade_in_nine_steps (s : Sys) (h0 : s.st.alpha = 0) :
    (∀ k : ℕ, ((fade_in)^[k] s).st.alpha = ((min k 9 : ℕ) : ℚ) / 10) ∧
    (∀ k : ℕ, ((fade_in)^[k] s).st.alpha ≤ 9/10) ∧
    (∀ k : ℕ, k < 9 → ((fade_in)^[k] s).st.alpha < 9/10) ∧
    ((fade_in)^[9] s).st.alpha = 9/10 ∧
    (∀ k : ℕ, k < 9 → (fade_in ((fade_in)^[k] s)).queue
        = ((fade_in)^[k] s).queue ++ [⟨((fade_in)^[k] s).nextId, 30, Cb.fadeIn⟩]) ∧
    (fade_in ((fade_in)^[9] s)).queue
        = ((fade_in)^[9] s).queue ++ [⟨((fade_in)^[9] s).nextId, 3000, Cb.fadeOut⟩] ∧
    (fade_in ((fade_in)^[9] s)).st.fadeout_timer = some ((fade_in)^[9] s).nextId := by
  have cast9 : ∀ k : ℕ, (((k : ℚ)) / 10 < 9/10 ↔ k < 9) := by
    intro k
    rw [div_lt_div_iff_of_pos_right (by norm_num : (0:ℚ) < 10)]
    exact_mod_cast Iff.rfl
  have main : ∀ k : ℕ, ((fade_in)^[k] s).st.alpha = ((min k 9 : ℕ) : ℚ) / 10 := by
    intro k
    induction k with
    | zero => simpa using h0
    | succ n ih =>
      rw [Function.iterate_succ_apply']
      by_cases hn : n < 9
      · have hlt : ((fade_in)^[n] s).st.alpha < 9/10 := by
          rw [ih, Nat.min_eq_left (by omega)]
          exact (cast9 n).mpr hn
        have : min (n+1) 9 = n + 1 := Nat.min_eq_left (by omega)
        rw [fade_in, if_pos hlt, this]
        show ((fade_in)^[n] s).st.alpha + 1/10 = ((n+1 : ℕ) : ℚ) / 10
        rw [ih, Nat.min_eq_left (by omega)]
        push_cast
        ring
      · have h9 : min n 9 = 9 := Nat.min_eq_right (by omega)
        have hge : ¬ ((fade_in)^[n] s).st.alpha < 9/10 := by
          rw [ih, h9]; norm_num
        have : min (n+1) 9 = 9 := Nat.min_eq_right (by omega)
        rw [fade_in, if_neg hge, this]
        show ((fade_in)^[n] s).st.alpha = ((9 : ℕ) : ℚ) / 10
        rw [ih, h9]
  have hle : ∀ k : ℕ, ((fade_in)^[k] s).st.alpha ≤ 9/10 := by
    intro k
    rw [main k]
    have : ((min k 9 : ℕ) : ℚ) ≤ 9 := by exact_mod_cast Nat.min_le_right k 9
    linarith
  have hlt : ∀ k : ℕ, k < 9 → ((fade_in)^[k] s).st.alpha < 9/10 := by
    intro k hk
    rw [main k, Nat.min_eq_left (by omega)]
    exact (cast9 k).mpr hk
  have h9 : ((fade_in)^[9] s).st.alpha = 9/10 := by
    rw [main 9]; norm_num
  refine ⟨main, hle, hlt, h9, ?_, ?_, ?_⟩
  · intro k hk
    rw [fade_in, if_pos (hlt k hk)]
    rfl
  · rw [fade_in, if_neg (by rw [h9]; norm_num)]
    rfl
  · rw [fade_in, if_neg (by rw [h9]; norm_num)]

/-- Witness for C4 at the freshly constructed Application. -/
theorem fade_in_nine_steps_witness :
    (initSys 1).st.alpha = 0 ∧
    ((fade_in)^[9] (initSys 1)).st.alpha = 9/10 ∧
    (fade_in ((fade_in)^[9] (initSys 1))).queue
      = ((fade_in)^[9] (initSys 1)).queue
        ++ [⟨((fade_in)^[9] (initSys 1)).nextId, 3000, Cb.fadeOut⟩] :=
  ⟨rfl, (fade_in_nine_steps (initSys 1) rfl).2.2.2.1,
    (fade_in_nine_steps (initSys 1) rfl).2.2.2.2.2.1⟩

/-- A plausible state at the moment a fade-out begins: opacity 0.9, an
animation in progress showing Recording Saved, the stale fade timer ids
left over from the fade-in and hold, and the poll scheduled. -/
def fadeOutStart : Sys :=
  { st := { alpha := 9/10, is_animating := true, pending_notification := false,
            notification := some (.recording, .saved), fade_timer := some 5,
            fadeout_timer := some 4, label_text := "Recording Saved",
            indicator := draw_indicator 1 NType.recording NState.saved, scale := 1 },
    queue := [⟨6, 100, Cb.checkLoop⟩], nextId := 7 }

/-- Fade-out stepping from opacity 0.9: each of the first 8 applications
subtracts exactly 0.1, and the 9th takes the terminal branch, which
clears is_animating and the stored request but leaves alpha untouched. -/
theorem fade_out_steps (s : Sys) (h : s.st.alpha = 9/10) :
    (∀ k : ℕ, k ≤ 8 → ((fade_out)^[k] s).st.alpha = 9/10 - (k : ℚ)/10) ∧
    ((fade_out)^[9] s).st.alpha = 1/10 ∧
    ((fade_out)^[9] s).st.is_animating = false ∧
    ((fade_out)^[9] s).st.notification = none := by
  have main : ∀ k : ℕ, k ≤ 8 → ((fade_out)^[k] s).st.alpha = 9/10 - (k : ℚ)/10 := by
    intro k
    induction k with
    | zero => intro _; simpa using h
    | succ n ih =>
      intro hn
      have ihn := ih (by omega)
      have hcond : 1/10 < ((fade_out)^[n] s).st.alpha := by
        rw [ihn]
        have : (n : ℚ) ≤ 7 := by exact_mod_cast (by omega : n ≤ 7)
        linarith
      rw [Function.iterate_succ_apply', fade_out, if_pos hcond]
      show ((fade_out)^[n] s).st.alpha - 1/10 = 9/10 - ((n + 1 : ℕ) : ℚ)/10
      rw [ihn]
      push_cast
      ring
  have h8 : ((fade_out)^[8] s).st.alpha = 1/10 := by
    rw [main 8 (by omega)]; norm_num
  have h9e : (fade_out)^[9] s = fade_out ((fade_out)^[8] s) :=
    Function.iterate_succ_apply' fade_out 8 s
  refine ⟨main, ?_, ?_, ?_⟩
  · rw [h9e, fade_out, if_neg (by rw [h8]; norm_num)]
    exact h8
  · rw [h9e, fade_out, if_neg (by rw [h8]; norm_num)]
  · rw [h9e, fade_out, if_neg (by rw [h8]; norm_num)]

/-- C1, evaluated at the failing input: running fade_out to the end of its
stepping from opacity 0.9 (8 stepping calls reach 0.1, the 9th takes the
terminal branch) does clear is_animating and the stored request, but
leaves opacity at exactly 0.1 -- the terminal branch never writes 0. -/
theorem fade_out_leaves_residual_opacity :
    ((fade_out)^[9] fadeOutStart).st.is_animating = false ∧
    ((fade_out)^[9] fadeOutStart).st.notification = none ∧
    ((fade_out)^[8] fadeOutStart).st.alpha = 1/10 ∧
    ((fade_out)^[9] fadeOutStart).st.alpha = 1/10 ∧
    ((fade_out)^[9] fadeOutStart).st.alpha ≠ 0 := by
  obtain ⟨main, h9a, h9anim, h9notif⟩ := fade_out_steps fadeOutStart rfl
  refine ⟨h9anim, h9notif, ?_, h9a, ?_⟩
  · rw [main 8 (by omega)]; norm_num
  · rw [h9a]; norm_num

theorem animCount_afterNew (s : Sys) (d : ℕ) (cb : Cb) :
    animCount (s.afterNew d cb) = animCount s + (if isAnimCb cb then 1 else 0) := by
  simp [animCount, Sys.afterNew, List.countP_append, List.countP_cons]

theorem mem_afterNew {s : Sys} {d : ℕ} {cb : Cb} {e : Entry} :
    e ∈ (s.afterNew d cb).queue ↔ e ∈ s.queue ∨ e = ⟨s.nextId, d, cb⟩ := by
  simp [Sys.afterNew]

theorem mem_cancel {s : Sys} {i : ℕ} {e : Entry} :
    e ∈ (s.cancel i).queue ↔ e ∈ s.queue ∧ e.id ≠ i := by
  simp [Sys.cancel]

/-- The inductive invariant of the UI event loop: at most one fade
callback is scheduled; every scheduled fade callback is the one whose id
is remembered in a fade timer field; timer ids are distinct and below the
fresh id; when not animating no fade callback is scheduled; a stored
request implies animating; and pending_notification is consumed within
the callback that set it, so it is false between callbacks. -/
structure Inv (s : Sys) : Prop where
  animLe : animCount s ≤ 1
  timerOk : ∀ e ∈ s.queue, isAnimCb e.cb = true →
    s.st.fade_timer = some e.id ∨ s.st.fadeout_timer = some e.id
  idsNodup : (s.queue.map Entry.id).Nodup
  idsLt : ∀ e ∈ s.queue, e.id < s.nextId
  idleNoAnim : s.st.is_animating = false → animCount s = 0
  notifAnim : ∀ r, s.st.notification = some r → s.st.is_animating = true
  pendFalse : s.st.pending_notification = false

theorem nextId_not_mem {s : Sys} (hLt : ∀ e ∈ s.queue, e.id < s.nextId) :
    s.nextId ∉ s.queue.map Entry.id := by
  intro hmem
  obtain ⟨e, he, hid⟩ := List.mem_map.mp hmem
  exact absurd hid (Nat.ne_of_lt (hLt e he))

theorem nodup_afterNew {s : Sys} (d : ℕ) (cb : Cb)
    (hNodup : (s.queue.map Entry.id).Nodup)
    (hLt : ∀ e ∈ s.queue, e.id < s.nextId) :
    ((s.afterNew d cb).queue.map Entry.id).Nodup := by
  have hnm := nextId_not_mem hLt
  simp only [Sys.afterNew, List.map_append, List.map_cons, List.map_nil]
  rw [List.nodup_append]
  exact ⟨hNodup, List.nodup_singleton _, by
    intro a ha hb
    simp only [List.mem_singleton] at hb
    subst hb
    exact hnm ha⟩

theorem inv_afterNew {s : Sys} (d : ℕ) (cb : Cb) (h : Inv s)
    (hcb : isAnimCb cb = false) : Inv (s.afterNew d cb) := by
  refine ⟨?_, ?_, ?_, ?_, ?_, ?_, ?_⟩
  · rw [animCount_afterNew, hcb]
    simpa using h.animLe
  · intro e he hanim
    rcases mem_afterNew.mp he with he' | rfl
    · exact h.timerOk e he' hanim
    · rw [hcb] at hanim; cases hanim
  · exact nodup_afterNew d cb h.idsNodup h.idsLt
  · intro e he
    rcases mem_afterNew.mp he with he' | rfl
    · exact Nat.lt_succ_of_lt (h.idsLt e he')
    · exact Nat.lt_succ_self _
  · intro hf
    rw [animCount_afterNew, hcb]
    simpa using h.idleNoAnim hf
  · exact h.notifAnim
  · exact h.pendFalse

theorem inv_cancel {s : Sys} (i : ℕ) (h : Inv s) : Inv (s.cancel i) := by
  have hsub : (s.cancel i).queue.Sublist s.queue := List.filter_sublist _
  refine ⟨?_, ?_, ?_, ?_, ?_, ?_, ?_⟩
  · exact le_trans (hsub.countP_le _) h.animLe
  · intro e he hanim
    exact h.timerOk e (mem_cancel.mp he).1 hanim
  · exact h.idsNodup.sublist (hsub.map Entry.id)
  · intro e he
    exact h.idsLt e (mem_cancel.mp he).1
  · intro hf
    exact Nat.le_zero.mp (le_trans (hsub.countP_le _) (Nat.le_of_eq (h.idleNoAnim hf)))
  · exact h.notifAnim
  · exact h.pendFalse

theorem countP_pair {l : List Entry} {p : Entry → Bool} {a b : Entry}
    (ha : a ∈ l) (hb : b ∈ l) (hab : a ≠ b) (hpa : p a = true) (hpb : p b = true) :
    2 ≤ l.countP p := by
  induction l with
  | nil => cases ha
  | cons x xs ih =>
    rcases List.mem_cons.mp ha with rfl | ha'
    · rcases List.mem_cons.mp hb with rfl | hb'
      · exact absurd rfl hab
      · have h1 : 0 < xs.countP p := List.countP_pos_iff.mpr ⟨b, hb', hpb⟩
        have h2 : (if p a = true then 1 else 0) = 1 := by simp [hpa]
        rw [List.countP_cons, h2]
        omega
    · rcases List.mem_cons.mp hb with rfl | hb'
      · have h1 : 0 < xs.countP p := List.countP_pos_iff.mpr ⟨a, ha', hpa⟩
        have h2 : (if p b = true then 1 else 0) = 1 := by simp [hpb]
        rw [List.countP_cons, h2]
        omega
      · have h2 := ih ha' hb'
        rw [List.countP_cons]
        omega

/-- Dequeuing a scheduled fade callback leaves no other fade callback in
the queue, and can only happen while animating. -/
theorem run_anim_erased {s : Sys} {e : Entry} (h : Inv s) (he : e ∈ s.queue)
    (hanim : isAnimCb e.cb = true) :
    animCount (s.cancel e.id) = 0 ∧ s.st.is_animating = true := by
  constructor
  · rw [animCount, List.countP_eq_zero]
    intro e' he' hanim'
    obtain ⟨he'q, hne⟩ := mem_cancel.mp he'
    have hne' : e' ≠ e := fun hEq => hne (by rw [hEq])
    have h2 := countP_pair (p := fun x => isAnimCb x.cb) he'q he hne' hanim' hanim
    have h1 := h.animLe
    rw [animCount] at h1
    omega
  · cases hA : s.st.is_animating
    · have h0 := h.idleNoAnim hA
      rw [animCount, List.countP_eq_zero] at h0
      exact absurd hanim (h0 e he)
    · rfl

/-- The interrupt block cancels every scheduled fade callback: each such
callback id is remembered in one of the two fade timer fields. -/
theorem interrupt_kills (s : Sys)
    (hT : ∀ e ∈ s.queue, isAnimCb e.cb = true →
      s.st.fade_timer = some e.id ∨ s.st.fadeout_timer = some e.id) :
    animCount (interrupt_branch s) = 0 := by
  rw [animCount, List.countP_eq_zero]
  intro e he hanim
  rcases hft : s.st.fade_timer with _ | i <;> rcases hfo : s.st.fadeout_timer with _ | j <;>
      simp only [interrupt_branch, hft, hfo, Sys.cancel, List.mem_filter,
        decide_eq_true_eq] at he
  · rcases hT e he hanim with hc | hc
    · rw [hft] at hc; cases hc
    · rw [hfo] at hc; cases hc
  · rcases hT e he.1 hanim with hc | hc
    · rw [hft] at hc; cases hc
    · rw [hfo] at hc
      exact he.2 (Option.some_injective _ hc.symm)
  · rcases hT e he.1 hanim with hc | hc
    · rw [hft] at hc
      exact he.2 (Option.some_injective _ hc.symm)
    · rw [hfo] at hc; cases hc
  · rcases hT e he.1.1 hanim with hc | hc
    · rw [hft] at hc
      exact he.1.2 (Option.some_injective _ hc.symm)
    · rw [hfo] at hc
      exact he.2 (Option.some_injective _ hc.symm)

theorem fade_in_proj_lt {s : Sys} (h : s.st.alpha < 9/10) :
    (fade_in s).queue = s.queue ++ [⟨s.nextId, 30, Cb.fadeIn⟩] ∧
    (fade_in s).nextId = s.nextId + 1 ∧
    (fade_in s).st.fade_timer = some s.nextId ∧
    (fade_in s).st.is_animating = s.st.is_animating ∧
    (fade_in s).st.notification = s.st.notification ∧
    (fade_in s).st.pending_notification = s.st.pending_notification := by
  rw [fade_in, if_pos h]
  exact ⟨rfl, rfl, rfl, rfl, rfl, rfl⟩

theorem fade_in_proj_ge {s : Sys} (h : ¬ s.st.alpha < 9/10) :
    (fade_in s).queue = s.queue ++ [⟨s.nextId, 3000, Cb.fadeOut⟩] ∧
    (fade_in s).nextId = s.nextId + 1 ∧
    (fade_in s).st.fadeout_timer = some s.nextId ∧
    (fade_in s).st.is_animating = s.st.is_animating ∧
    (fade_in s).st.notification = s.st.notification ∧
    (fade_in s).st.pending_notification = s.st.pending_notification := by
  rw [fade_in, if_neg h]
  exact ⟨rfl, rfl, rfl, rfl, rfl, rfl⟩

theorem fade_out_proj_lt {s : Sys} (h : 1/10 < s.st.alpha) :
    (fade_out s).queue = s.queue ++ [⟨s.nextId, 30, Cb.fadeOut⟩] ∧
    (fade_out s).nextId = s.nextId + 1 ∧
    (fade_out s).st.fade_timer = some s.nextId ∧
    (fade_out s).st.is_animating = s.st.is_animating ∧
    (fade_out s).st.notification = s.st.notification ∧
    (fade_out s).st.pending_notification = s.st.pending_notification := by
  rw [fade_out, if_pos h]
  exact ⟨rfl, rfl, rfl, rfl, rfl, rfl⟩

theorem fade_out_proj_ge {s : Sys} (h : ¬ 1/10 < s.st.alpha) :
    (fade_out s).queue = s.queue ∧
    (fade_out s).nextId = s.nextId ∧
    (fade_out s).st.is_animating = false ∧
    (fade_out s).st.notification = none ∧
    (fade_out s).st.pending_notification = s.st.pending_notification := by
  rw [fade_out, if_neg h]
  exact ⟨rfl, rfl, rfl, rfl, rfl⟩

/-- fade_in keeps the invariant when no other fade callback is scheduled
and an animation is in progress. -/
theorem inv_fade_in {s : Sys}
    (hq : animCount s = 0)
    (hNodup : (s.queue.map Entry.id).Nodup)
    (hLt : ∀ e ∈ s.queue, e.id < s.nextId)
    (hAnim : s.st.is_animating = true)
    (hPend : s.st.pending_notification = false) :
    Inv (fade_in s) := by
  have hq' : s.queue.countP (fun e => isAnimCb e.cb) = 0 := hq
  by_cases hc : s.st.alpha < 9/10
  · obtain ⟨hQ, hN, hft, hA, hNo, hP⟩ := fade_in_proj_lt hc
    refine ⟨?_, ?_, ?_, ?_, ?_, ?_, ?_⟩
    · rw [animCount, hQ, List.countP_append, hq']
      simp [isAnimCb]
    · intro e he hanim
      rw [hQ] at he
      rcases List.mem_append.mp he with he' | he'
      · exact absurd hanim (List.countP_eq_zero.mp hq' e he')
      · rw [List.mem_singleton] at he'
        subst he'
        left
        rw [hft]
    · have : (fade_in s).queue.map Entry.id = (s.afterNew 30 Cb.fadeIn).queue.map Entry.id := by
        rw [hQ]; rfl
      rw [this]
      exact nodup_afterNew 30 Cb.fadeIn hNodup hLt
    · intro e he
      rw [hQ] at he
      rw [hN]
      rcases List.mem_append.mp he with he' | he'
      · exact Nat.lt_succ_of_lt (hLt e he')
      · rw [List.mem_singleton] at he'
        subst he'
        exact Nat.lt_succ_self _
    · intro hf
      rw [hA, hAnim] at hf
      cases hf
    · intro r hr
      rw [hA]
      exact hAnim
    · rw [hP]
      exact hPend
  · obtain ⟨hQ, hN, hfo, hA, hNo, hP⟩ := fade_in_proj_ge hc
    refine ⟨?_, ?_, ?_, ?_, ?_, ?_, ?_⟩
    · rw [animCount, hQ, List.countP_append, hq']
      simp [isAnimCb]
    · intro e he hanim
      rw [hQ] at he
      rcases List.mem_append.mp he with he' | he'
      · exact absurd hanim (List.countP_eq_zero.mp hq' e he')
      · rw [List.mem_singleton] at he'
        subst he'
        right
        rw [hfo]
    · have : (fade_in s).queue.map Entry.id = (s.afterNew 3000 Cb.fadeOut).queue.map Entry.id := by
        rw [hQ]; rfl
      rw [this]
      exact nodup_afterNew 3000 Cb.fadeOut hNodup hLt
    · intro e he
      rw [hQ] at he
      rw [hN]
      rcases List.mem_append.mp he with he' | he'
      · exact Nat.lt_succ_of_lt (hLt e he')
      · rw [List.mem_singleton] at he'
        subst he'
        exact Nat.lt_succ_self _
    · intro hf
      rw [hA, hAnim] at hf
      cases hf
    · intro r hr
      rw [hA]
      exact hAnim
    · rw [hP]
      exact hPend

/-- fade_out keeps the invariant when no other fade callback is scheduled
and an animation is in progress. -/
theorem inv_fade_out {s : Sys}
    (hq : animCount s = 0)
    (hNodup : (s.queue.map Entry.id).Nodup)
    (hLt : ∀ e ∈ s.queue, e.id < s.nextId)
    (hAnim : s.st.is_animating = true)
    (hPend : s.st.pending_notification = false) :
    Inv (fade_out s) := by
  have hq' : s.queue.countP (fun e => isAnimCb e.cb) = 0 := hq
  by_cases hc : 1/10 < s.st.alpha
  · obtain ⟨hQ, hN, hft, hA, hNo, hP⟩ := fade_out_proj_lt hc
    refine ⟨?_, ?_, ?_, ?_, ?_, ?_, ?_⟩
    · rw [animCount, hQ, List.countP_append, hq']
      simp [isAnimCb]
    · intro e he hanim
      rw [hQ] at he
      rcases List.mem_append.mp he with he' | he'
      · exact absurd hanim (List.countP_eq_zero.mp hq' e he')
      · rw [List.mem_singleton] at he'
        subst he'
        left
        rw [hft]
    · have : (fade_out s).queue.map Entry.id = (s.afterNew 30 Cb.fadeOut).queue.map Entry.id := by
        rw [hQ]; rfl
      rw [this]
      exact nodup_afterNew 30 Cb.fadeOut hNodup hLt
    · intro e he
      rw [hQ] at he
      rw [hN]
      rcases List.mem_append.mp he with he' | he'
      · exact Nat.lt_succ_of_lt (hLt e he')
      · rw [List.mem_singleton] at he'
        subst he'
        exact Nat.lt_succ_self _
    · intro hf
      rw [hA, hAnim] at hf
      cases hf
    · intro r hr
      rw [hA]
      exact hAnim
    · rw [hP]
      exact hPend
  · obtain ⟨hQ, hN, hA, hNo, hP⟩ := fade_out_proj_ge hc
    refine ⟨?_, ?_, ?_, ?_, ?_, ?_, ?_⟩
    · rw [animCount, hQ, hq']
      omega
    · intro e he hanim
      rw [hQ] at he
      exact absurd hanim (List.countP_eq_zero.mp hq' e he)
    · have : (fade_out s).queue.map Entry.id = s.queue.map Entry.id := by rw [hQ]
      rw [this]
      exact hNodup
    · intro e he
      rw [hQ] at he
      rw [hN]
      exact hLt e he
    · intro _
      rw [animCount, hQ]
      exact hq'
    · intro r hr
      rw [hNo] at hr
      cases hr
    · rw [hP]
      exact hPend

theorem interrupt_sublist (s : Sys) :
    (interrupt_branch s).queue.Sublist s.queue := by
  rcases hft : s.st.fade_timer with _ | i <;> rcases hfo : s.st.fadeout_timer with _ | j <;>
      simp only [interrupt_branch, hft, hfo, Sys.cancel]
  · exact List.Sublist.refl _
  · exact List.filter_sublist _
  · exact List.filter_sublist _
  · exact (List.filter_sublist _).trans (List.filter_sublist _)

theorem interrupt_nextId (s : Sys) : (interrupt_branch s).nextId = s.nextId := by
  rcases hft : s.st.fade_timer with _ | i <;> rcases hfo : s.st.fadeout_timer with _ | j <;>
      simp only [interrupt_branch, hft, hfo, Sys.cancel]

/-- The dispatcher lambda always drives check_loop_status through the
interrupt branch, because it sets pending_notification itself: the call
reduces to the interrupt block, the render block, the inline fade_in and
the poll reschedule. -/
theorem submit_cb_eq (r : Req) (s : Sys) :
    submit_cb r s
      = (fade_in (startRender r (interrupt_branch (submitSet r s)))).afterNew 100 Cb.checkLoop := by
  simp [submit_cb, check_loop_status, submitSet]

/-- Running the dispatcher lambda preserves the invariant: the lambda sets
pending_notification, so check_loop_status takes the interrupt branch,
which cancels every fade callback before the inline fade_in schedules a
single new one. -/
theorem inv_submit {s : Sys} (h : Inv s) (r : Req) : Inv (submit_cb r s) := by
  have hkill : animCount (interrupt_branch (submitSet r s)) = 0 :=
    interrupt_kills (submitSet r s) (fun e he ha => h.timerOk e he ha)
  have hsub : (interrupt_branch (submitSet r s)).queue.Sublist s.queue :=
    interrupt_sublist (submitSet r s)
  rw [submit_cb_eq]
  refine inv_afterNew 100 Cb.checkLoop ?_ rfl
  refine inv_fade_in hkill ?_ ?_ rfl rfl
  · exact h.idsNodup.sublist (hsub.map Entry.id)
  · intro e he
    have he' : e ∈ s.queue := hsub.subset he
    have hlt := h.idsLt e he'
    have hn : (startRender r (interrupt_branch (submitSet r s))).nextId = s.nextId :=
      interrupt_nextId (submitSet r s)
    rw [hn]
    exact hlt

/-- check_loop_status from a between-callbacks state always takes one of
the two reschedule-only paths. -/
theorem inv_check_loop {s : Sys} (h : Inv s) : Inv (check_loop_status s) := by
  rcases hn : s.st.notification with _ | r
  · have heq : check_loop_status s = s.afterNew 100 Cb.checkLoop := by
      simp [check_loop_status, hn]
    rw [heq]
    exact inv_afterNew 100 Cb.checkLoop h rfl
  · have hA : s.st.is_animating = true := h.notifAnim r hn
    have heq : check_loop_status s = s.afterNew 100 Cb.checkLoop := by
      simp [check_loop_status, hn, hA, h.pendFalse]
    rw [heq]
    exact inv_afterNew 100 Cb.checkLoop h rfl

theorem inv_start (sc : ℚ) : Inv (startSys sc) := by
  have heq : startSys sc = (initSys sc).afterNew 100 Cb.checkLoop := rfl
  rw [heq]
  refine inv_afterNew 100 Cb.checkLoop ?_ rfl
  refine ⟨?_, ?_, ?_, ?_, ?_, ?_, ?_⟩
  · simp [animCount, initSys]
  · intro e he
    simp [initSys] at he
  · simp [initSys]
  · intro e he
    simp [initSys] at he
  · intro _
    simp [animCount, initSys]
  · intro r hr
    simp [initSys, initApp] at hr
  · rfl

theorem step_inv {s s' : Sys} (h : Inv s) (hs : Step s s') : Inv s' := by
  cases hs with
  | post r => exact inv_afterNew 0 (Cb.submit r) h rfl
  | run e he =>
    have hc : Inv (s.cancel e.id) := inv_cancel e.id h
    cases hcb : e.cb with
    | fadeIn =>
      obtain ⟨h0, hA⟩ := run_anim_erased h he (by rw [hcb]; rfl)
      exact inv_fade_in h0 hc.idsNodup hc.idsLt hA hc.pendFalse
    | fadeOut =>
      obtain ⟨h0, hA⟩ := run_anim_erased h he (by rw [hcb]; rfl)
      exact inv_fade_out h0 hc.idsNodup hc.idsLt hA hc.pendFalse
    | checkLoop => exact inv_check_loop hc
    | submit r => exact inv_submit hc r

/-- Every state the UI event loop can reach satisfies the invariant. -/
theorem reachable_inv {sc : ℚ} {s : Sys} (h : Reachable sc s) : Inv s := by
  induction h with
  | refl => exact inv_start sc
  | tail _ hstep ih => exact step_inv ih hstep

theorem fade_in_keeps_render (v : Sys) :
    (fade_in v).st.label_text = v.st.label_text ∧
    (fade_in v).st.indicator = v.st.indicator ∧
    (fade_in v).st.scale = v.st.scale := by
  by_cases hc : v.st.alpha < 9/10
  · rw [fade_in, if_pos hc]
    exact ⟨rfl, rfl, rfl⟩
  · rw [fade_in, if_neg hc]
    exact ⟨rfl, rfl, rfl⟩

theorem fade_in_iter_render (v : Sys) (k : ℕ) :
    ((fade_in)^[k] v).st.label_text = v.st.label_text ∧
    ((fade_in)^[k] v).st.indicator = v.st.indicator := by
  induction k with
  | zero => exact ⟨rfl, rfl⟩
  | succ n ih =>
    rw [Function.iterate_succ_apply']
    obtain ⟨h1, h2, _⟩ := fade_in_keeps_render ((fade_in)^[n] v)
    exact ⟨h1.trans ih.1, h2.trans ih.2⟩

theorem interrupt_st (v : Sys) :
    (interrupt_branch v).st.alpha = 0 ∧
    (interrupt_branch v).st.pending_notification = false ∧
    (interrupt_branch v).st.is_animating = v.st.is_animating ∧
    (interrupt_branch v).st.notification = v.st.notification ∧
    (interrupt_branch v).st.label_text = v.st.label_text ∧
    (interrupt_branch v).st.indicator = v.st.indicator ∧
    (interrupt_branch v).st.scale = v.st.scale := by
  rcases hft : v.st.fade_timer with _ | i <;> rcases hfo : v.st.fadeout_timer with _ | j <;>
      simp [interrupt_branch, hft, hfo, Sys.cancel]

/-- C5: for every reachable state of the UI event loop at most one fade
callback chain is in progress (never two fade callbacks scheduled
concurrently), and a newly arriving request is always recorded by storing
it over the notification slot and raising pending_notification. -/
theorem at_most_one_animation (sc : ℚ) (s : Sys) (h : Reachable sc s) :
    animCount s ≤ 1 ∧
    ∀ r : Req, (submitSet r s).st.pending_notification = true ∧
      (submitSet r s).st.notification = some r :=
  ⟨(reachable_inv h).animLe, fun _ => ⟨rfl, rfl⟩⟩

/-- Witness for C5 at the mainloop start state. -/
theorem at_most_one_animation_witness :
    Reachable 1 (startSys 1) ∧
    animCount (startSys 1) ≤ 1 ∧
    (submitSet (NType.recording, NState.started) (startSys 1)).st.pending_notification
      = true :=
  ⟨Relation.ReflTransGen.refl,
   (at_most_one_animation 1 (startSys 1) Relation.ReflTransGen.refl).1,
   ((at_most_one_animation 1 (startSys 1) Relation.ReflTransGen.refl).2
      (NType.recording, NState.started)).1⟩

/-- C2: a request submitted while an animation is in progress runs the
interrupt path: every scheduled fade callback is cancelled, opacity is
snapped to 0 and the interrupt flag is cleared before the new fade-in
starts, and after the fade-in (any number of its steps) the rendered
label and glyph are those of the newest stored request. -/
theorem second_request_interrupts (sc : ℚ) (s : Sys) (e : Entry) (r2 : Req)
    (hr : Reachable sc s) (he : e ∈ s.queue) (hcb : e.cb = Cb.submit r2)
    (hanim : s.st.is_animating = true) :
    (submitSet r2 (s.cancel e.id)).st.pending_notification = true ∧
    animCount (interrupt_branch (submitSet r2 (s.cancel e.id))) = 0 ∧
    (interrupt_branch (submitSet r2 (s.cancel e.id))).st.alpha = 0 ∧
    (interrupt_branch (submitSet r2 (s.cancel e.id))).st.pending_notification = false ∧
    submit_cb r2 (s.cancel e.id)
      = (fade_in (startRender r2 (interrupt_branch (submitSet r2 (s.cancel e.id))))).afterNew
          100 Cb.checkLoop ∧
    (∀ k : ℕ, ((fade_in)^[k] (submit_cb r2 (s.cancel e.id))).st.label_text = labels r2) ∧
    (∀ k : ℕ, ((fade_in)^[k] (submit_cb r2 (s.cancel e.id))).st.indicator
        = draw_indicator s.st.scale r2.1 r2.2) := by
  have hinv := reachable_inv hr
  have hcInv := inv_cancel e.id hinv
  have hkill : animCount (interrupt_branch (submitSet r2 (s.cancel e.id))) = 0 :=
    interrupt_kills (submitSet r2 (s.cancel e.id))
      (fun e' he' ha => hcInv.timerOk e' he' ha)
  have hsc : (interrupt_branch (submitSet r2 (s.cancel e.id))).st.scale = s.st.scale :=
    (interrupt_st (submitSet r2 (s.cancel e.id))).2.2.2.2.2.2
  have hbaseL : (submit_cb r2 (s.cancel e.id)).st.label_text = labels r2 := by
    rw [submit_cb_eq]
    exact (fade_in_keeps_render
      (startRender r2 (interrupt_branch (submitSet r2 (s.cancel e.id))))).1
  have hbaseI : (submit_cb r2 (s.cancel e.id)).st.indicator
      = draw_indicator s.st.scale r2.1 r2.2 := by
    rw [submit_cb_eq]
    have h1 := (fade_in_keeps_render
      (startRender r2 (interrupt_branch (submitSet r2 (s.cancel e.id))))).2.1
    have h2 : (startRender r2 (interrupt_branch (submitSet r2 (s.cancel e.id)))).st.indicator
        = draw_indicator s.st.scale r2.1 r2.2 := by
      show draw_indicator (interrupt_branch (submitSet r2 (s.cancel e.id))).st.scale r2.1 r2.2
        = draw_indicator s.st.scale r2.1 r2.2
      rw [hsc]
    exact h1.trans h2
  refine ⟨rfl, hkill, rfl, rfl, submit_cb_eq r2 (s.cancel e.id), ?_, ?_⟩
  · intro k
    exact (fade_in_iter_render (submit_cb r2 (s.cancel e.id)) k).1.trans hbaseL
  · intro k
    exact (fade_in_iter_render (submit_cb r2 (s.cancel e.id)) k).2.trans hbaseI

/-- A dispatcher submission posted right after mainloop starts. -/
def demoPost : Sys := (startSys 1).afterNew 0 (Cb.submit (NType.recording, NState.started))

/-- The state after that submission has run: an animation is in
progress. -/
def demoBase : Sys := submit_cb (NType.recording, NState.started) (demoPost.cancel 1)

/-- A second submission posted while the first animation is running. -/
def demoSecond : Sys := demoBase.afterNew 0 (Cb.submit (NType.replay, NState.saved))

theorem demoSecond_reachable : Reachable 1 demoSecond := by
  have h1 : Step (startSys 1) demoPost :=
    Step.post (startSys 1) (NType.recording, NState.started)
  have h2 : Step demoPost demoBase := by
    have hm : (⟨1, 0, Cb.submit (NType.recording, NState.started)⟩ : Entry)
        ∈ demoPost.queue := by decide
    exact Step.run demoPost ⟨1, 0, Cb.submit (NType.recording, NState.started)⟩ hm
  have h3 : Step demoBase demoSecond :=
    Step.post demoBase (NType.replay, NState.saved)
  exact Relation.ReflTransGen.tail
    (Relation.ReflTransGen.tail (Relation.ReflTransGen.single h1) h2) h3

theorem demoSecond_animating : demoSecond.st.is_animating = true := by
  have h0 : (startRender (NType.recording, NState.started)
      (interrupt_branch (submitSet (NType.recording, NState.started)
        (demoPost.cancel 1)))).st.alpha < 9/10 := by
    show (0 : ℚ) < 9/10
    norm_num
  show demoBase.st.is_animating = true
  rw [show demoBase = (fade_in (startRender (NType.recording, NState.started)
      (interrupt_branch (submitSet (NType.recording, NState.started)
        (demoPost.cancel 1))))).afterNew 100 Cb.checkLoop
    from submit_cb_eq (NType.recording, NState.started) (demoPost.cancel 1)]
  exact (fade_in_proj_lt h0).2.2.2.1

/-- Witness for C2: the second submission interrupts the running
animation; after nine fade-in steps the label shows the second request. -/
theorem second_request_interrupts_witness :
    ((⟨demoBase.nextId, 0, Cb.submit (NType.replay, NState.saved)⟩ : Entry)
      ∈ demoSecond.queue) ∧
    demoSecond.st.is_animating = true ∧
    (submitSet (NType.replay, NState.saved)
      (demoSecond.cancel demoBase.nextId)).st.pending_notification = true ∧
    animCount (interrupt_branch (submitSet (NType.replay, NState.saved)
      (demoSecond.cancel demoBase.nextId))) = 0 ∧
    (interrupt_branch (submitSet (NType.replay, NState.saved)
      (demoSecond.cancel demoBase.nextId))).st.alpha = 0 ∧
    ((fade_in)^[9] (submit_cb (NType.replay, NState.saved)
      (demoSecond.cancel demoBase.nextId))).st.label_text
        = labels (NType.replay, NState.saved) := by
  have hmem : (⟨demoBase.nextId, 0, Cb.submit (NType.replay, NState.saved)⟩ : Entry)
      ∈ demoSecond.queue := mem_afterNew.mpr (Or.inr rfl)
  have h := second_request_interrupts 1 demoSecond
    ⟨demoBase.nextId, 0, Cb.submit (NType.replay, NState.saved)⟩
    (NType.replay, NState.saved)
    demoSecond_reachable hmem rfl demoSecond_animating
  exact ⟨hmem, demoSecond_animating, h.1, h.2.1, h.2.2.1, h.2.2.2.2.2.1 9⟩

/-- A state on which the body of check_loop_status is about to run:
either a queued poll callback fired (the body runs on the state with that
entry dequeued), or a queued dispatcher lambda fired and performed its
field writes before its inline call to check_loop_status. -/
def CheckInvocation (sc : ℚ) (u : Sys) : Prop :=
  ∃ s e, Reachable sc s ∧ e ∈ s.queue ∧
    ((e.cb = Cb.checkLoop ∧ u = s.cancel e.id) ∨
     (∃ r, e.cb = Cb.submit r ∧ u = submitSet r (s.cancel e.id)))

/-- C10: whenever a check_loop_status invocation is about to start a
fade-in (a request is stored and the animating-and-no-interrupt skip does
not apply), the pending-interrupt flag is necessarily set -- every
dispatched notification sets it, even when the popup is idle -- so the
interrupt branch executes, and the fade-in begins from opacity exactly
0. -/
theorem fade_in_starts_from_zero (sc : ℚ) (u : Sys) (r : Req)
    (hci : CheckInvocation sc u) (hn : u.st.notification = some r)
    (hstart : u.st.is_animating = true → u.st.pending_notification = true) :
    u.st.pending_notification = true ∧
    (interrupt_branch u).st.alpha = 0 ∧
    (startRender r (interrupt_branch u)).st.alpha = 0 ∧
    check_loop_status u
      = (fade_in (startRender r (interrupt_branch u))).afterNew 100 Cb.checkLoop := by
  obtain ⟨s, e, hr, he, hcase⟩ := hci
  have hinv := reachable_inv hr
  rcases hcase with ⟨hcb, hu⟩ | ⟨r', hcb, hu⟩
  · exfalso
    subst hu
    have hn' : s.st.notification = some r := hn
    have hA : s.st.is_animating = true := hinv.notifAnim r hn'
    have hptrue : s.st.pending_notification = true := hstart hA
    rw [hinv.pendFalse] at hptrue
    exact Bool.false_ne_true hptrue
  · subst hu
    have hrr : some r' = some r := hn
    obtain rfl : r = r' := (Option.some_injective _ hrr).symm
    exact ⟨rfl, rfl, rfl, submit_cb_eq r (s.cancel e.id)⟩

/-- The state a dispatcher lambda posted at mainloop start runs on, right
after its field writes. -/
def demoInvoke : Sys :=
  submitSet (NType.recording, NState.started) (demoPost.cancel 1)

/-- Witness for C10 at the first submission after mainloop start. -/
theorem fade_in_starts_from_zero_witness :
    CheckInvocation 1 demoInvoke ∧
    demoInvoke.st.notification = some (NType.recording, NState.started) ∧
    demoInvoke.st.pending_notification = true ∧
    (interrupt_branch demoInvoke).st.alpha = 0 ∧
    (startRender (NType.recording, NState.started)
      (interrupt_branch demoInvoke)).st.alpha = 0 ∧
    check_loop_status demoInvoke
      = (fade_in (startRender (NType.recording, NState.started)
          (interrupt_branch demoInvoke))).afterNew 100 Cb.checkLoop := by
  have hci : CheckInvocation 1 demoInvoke :=
    ⟨demoPost, ⟨1, 0, Cb.submit (NType.recording, NState.started)⟩,
     Relation.ReflTransGen.single (Step.post (startSys 1) (NType.recording, NState.started)),
     by decide,
     Or.inr ⟨(NType.recording, NState.started), rfl, rfl⟩⟩
  have h := fade_in_starts_from_zero 1 demoInvoke (NType.recording, NState.started)
    hci rfl (fun _ => rfl)
  exact ⟨hci, rfl, h.1, h.2.1, h.2.2.1, h.2.2.2⟩

end ObsNotify
